import Mathlib

/-!
Verification development for the helmux repository (a tmux control-mode
front-end with a built-in VT/ANSI terminal emulator).

The definitions below are a shallow embedding of the Rust sources:

* `src/terminal/buffer.rs` — the `TerminalBuffer` emulator.  The byte-level
  `vte::Parser` is an external crate; we embed the program at the
  `vte::Perform` interface it implements, i.e. at the level of the semantic
  events `print`, `execute`, `csi_dispatch`, `esc_dispatch` (one `Op` per
  event, plus `resize`).  Machine integers (`u16`) are modelled as `Nat`;
  at the two places where the source performs unchecked `u16` addition that
  can overflow (`cursor_col + n` in CUF, `cursor_col + count` in ECH, and
  the analogous small sums), the wrap-around of a release build is made
  explicit with `% 65536`.
* `src/tmux/protocol.rs` — `Notification::parse` and `decode_output`.
* `src/tmux/connection.rs` — the `next_event` demultiplexing loop, embedded
  as a pure transition on the connection state fed with a list of lines
  (one line per `read_line`, trailing newline already removed).
* `src/app.rs` — the tab registry (`App`); the `HashMap<String, Tab>` is
  modelled as an association list with the map operations actually used
  by the source (`get_mut`, `insert`, `retain`, `contains_key`).
-/

/-! ### Colours, attributes and cells (`buffer.rs` lines 8–84) -/

/-- ratatui `Color` as used by the source: the `Reset` default, the sixteen
named ANSI colours, or a 24-bit RGB triple. -/
inductive Color where
  | Reset
  | Black | Red | Green | Yellow | Blue | Magenta | Cyan | White
  | DarkGray | LightRed | LightGreen | LightYellow
  | LightBlue | LightMagenta | LightCyan | Gray
  | Rgb (r g b : Nat)
  deriving DecidableEq

/-- `CellAttributes`: the seven boolean attribute flags. -/
structure CellAttributes where
  bold : Bool := false
  italic : Bool := false
  underline : Bool := false
  blink : Bool := false
  reverse : Bool := false
  hidden : Bool := false
  strikethrough : Bool := false
  deriving DecidableEq

/-- a single cell of the grid. -/
structure Cell where
  character : Char
  fg : Color
  bg : Color
  attrs : CellAttributes
  deriving DecidableEq

/-- `Cell::default()`: a blank space with reset colours and no attributes. -/
def Cell.default : Cell :=
  { character := ' ', fg := Color.Reset, bg := Color.Reset, attrs := {} }

/-- `Cell::with_style`. -/
def Cell.with_style (c : Char) (fg bg : Color) (attrs : CellAttributes) : Cell :=
  { character := c, fg := fg, bg := bg, attrs := attrs }

/-! ### List helpers mirroring the Vec / slice operations used by the source -/

/-- `Vec::resize(n, d)`: truncate to `n` elements or extend with copies of
`d` up to length `n`. -/
def vecResize (l : List α) (n : Nat) (d : α) : List α :=
  l.take n ++ List.replicate (n - l.length) d

/-- `slice::swap(i, j)` (indices in range in every use site; out-of-range
indices leave the list unchanged). -/
def swapIdx (l : List α) (i j : Nat) : List α :=
  match l.get? i, l.get? j with
  | some a, some b => (l.set i b).set j a
  | _, _ => l

/-- `if let Some(row) = cells.get_mut(r) { f(row) }`. -/
def modifyRow (cells : List (List Cell)) (r : Nat) (f : List Cell → List Cell) :
    List (List Cell) :=
  match cells.get? r with
  | some row => cells.set r (f row)
  | none => cells

/-- write one cell at `(r, c)` through the guarded `get_mut` pattern of
`write_char`. -/
def setCell (cells : List (List Cell)) (r c : Nat) (v : Cell) :
    List (List Cell) :=
  modifyRow cells r (fun row => row.set c v)

/-- the loop `for col in lo..hi { if let Some(cell) = row.get_mut(col) { *cell
= default } }`. -/
def clearColsRange (row : List Cell) (lo hi : Nat) : List Cell :=
  (List.range' lo (hi - lo)).foldl (fun r c => r.set c Cell.default) row

/-- fill a whole row with default cells (`for cell in row { *cell = default }`). -/
def clearRow (row : List Cell) : List Cell :=
  row.map (fun _ => Cell.default)

/-- the loop `for row in lo..hi { clear cells[row] }`. -/
def clearRowsRange (cells : List (List Cell)) (lo hi : Nat) :
    List (List Cell) :=
  (List.range' lo (hi - lo)).foldl (fun cs r => modifyRow cs r clearRow) cells

/-- iterate a state transformer `count` times (`for _ in 0..count { body }`). -/
def repeatApply (f : α → α) : Nat → α → α
  | 0, a => a
  | n + 1, a => repeatApply f n (f a)

/-! ### The emulator state (`buffer.rs` lines 86–137) -/

/-- default scrollback cap (`DEFAULT_SCROLLBACK`). -/
def DEFAULT_SCROLLBACK : Nat := 1000

/-- `TerminalBuffer`: the emulator state, with `u16` fields as `Nat` and the
`VecDeque` scrollback as a list whose head is the oldest line. -/
structure TerminalBuffer where
  width : Nat
  height : Nat
  cells : List (List Cell)
  cursor_row : Nat
  cursor_col : Nat
  cursor_visible : Bool
  scrollback : List (List Cell)
  scrollback_limit : Nat
  current_fg : Color
  current_bg : Color
  current_attrs : CellAttributes
  scroll_top : Nat
  scroll_bottom : Nat
  saved_cursor : Option (Nat × Nat)
  origin_mode : Bool
  deriving DecidableEq

namespace TerminalBuffer

/-- `TerminalBuffer::new(width, height)`. -/
def new (width height : Nat) : TerminalBuffer where
  width := width
  height := height
  cells := List.replicate height (List.replicate width Cell.default)
  cursor_row := 0
  cursor_col := 0
  cursor_visible := true
  scrollback := []
  scrollback_limit := DEFAULT_SCROLLBACK
  current_fg := Color.Reset
  current_bg := Color.Reset
  current_attrs := {}
  scroll_top := 0
  scroll_bottom := height - 1
  saved_cursor := none
  origin_mode := false

/-- `get_cell(row, col)`. -/
def get_cell (st : TerminalBuffer) (row col : Nat) : Option Cell :=
  (st.cells.get? row).bind (fun r => r.get? col)

/-- `resize(new_width, new_height)`: early-return on equal dimensions, row
resize, outer resize, scroll-region adjustment, cursor clamp. -/
def resize (st : TerminalBuffer) (new_width new_height : Nat) : TerminalBuffer :=
  if new_width = st.width ∧ new_height = st.height then st
  else
    let cells := st.cells.map (fun row => vecResize row new_width Cell.default)
    let cells := vecResize cells new_height (List.replicate new_width Cell.default)
    { st with
      cells := cells
      width := new_width
      height := new_height
      scroll_bottom := new_height - 1
      scroll_top := if st.scroll_top ≥ new_height then 0 else st.scroll_top
      cursor_row := min st.cursor_row (new_height - 1)
      cursor_col := min st.cursor_col (new_width - 1) }

/-- `clear()`. -/
def clear (st : TerminalBuffer) : TerminalBuffer :=
  { st with
    cells := st.cells.map clearRow
    cursor_row := 0
    cursor_col := 0 }

/-- `clear_to_end_of_line()`. -/
def clear_to_end_of_line (st : TerminalBuffer) : TerminalBuffer :=
  { st with cells := (modifyRow st.cells st.cursor_row
      (fun row => clearColsRange row st.cursor_col st.width)) }

/-- `clear_to_start_of_line()` (inclusive range `0..=cursor_col`). -/
def clear_to_start_of_line (st : TerminalBuffer) : TerminalBuffer :=
  { st with cells := (modifyRow st.cells st.cursor_row
      (fun row => clearColsRange row 0 (st.cursor_col + 1))) }

/-- `clear_to_end_of_screen()`. -/
def clear_to_end_of_screen (st : TerminalBuffer) : TerminalBuffer :=
  let st := st.clear_to_end_of_line
  { st with cells := clearRowsRange st.cells ((st.cursor_row + 1) % 65536) st.height }

/-- `clear_to_start_of_screen()`. -/
def clear_to_start_of_screen (st : TerminalBuffer) : TerminalBuffer :=
  let st := { st with cells := clearRowsRange st.cells 0 st.cursor_row }
  st.clear_to_start_of_line

/-- `clear_line()`. -/
def clear_line (st : TerminalBuffer) : TerminalBuffer :=
  { st with cells := modifyRow st.cells st.cursor_row clearRow }

/-- one iteration of the `scroll_up` loop body. -/
def scroll_up_step (st : TerminalBuffer) : TerminalBuffer :=
  let st :=
    if st.scroll_top = 0 then
      let line := st.cells.headD []
      let sb := if st.scrollback.length ≥ st.scrollback_limit
                then st.scrollback.tail else st.scrollback
      { st with scrollback := sb ++ [line] }
    else st
  let cells := (List.range' st.scroll_top (st.scroll_bottom - st.scroll_top)).foldl
      (fun cs r => swapIdx cs r (r + 1)) st.cells
  let cells := modifyRow cells st.scroll_bottom clearRow
  { st with cells := cells }

/-- `scroll_up(count)`. -/
def scroll_up (st : TerminalBuffer) (count : Nat) : TerminalBuffer :=
  repeatApply scroll_up_step count st

/-- one iteration of the `scroll_down` loop body (the reversed swap loop). -/
def scroll_down_step (st : TerminalBuffer) : TerminalBuffer :=
  let cells := ((List.range' (st.scroll_top + 1) (st.scroll_bottom - st.scroll_top)).reverse).foldl
      (fun cs r => swapIdx cs r (r - 1)) st.cells
  let cells := modifyRow cells st.scroll_top clearRow
  { st with cells := cells }

/-- `scroll_down(count)`. -/
def scroll_down (st : TerminalBuffer) (count : Nat) : TerminalBuffer :=
  repeatApply scroll_down_step count st

/-- `move_cursor_down(count)`: per step, scroll when at or beyond
`scroll_bottom`, otherwise increment the row. -/
def move_cursor_down (st : TerminalBuffer) : Nat → TerminalBuffer
  | 0 => st
  | n + 1 =>
    let st' := if st.cursor_row ≥ st.scroll_bottom
               then st.scroll_up 1
               else { st with cursor_row := st.cursor_row + 1 }
    move_cursor_down st' n

/-- `move_cursor_up(count)`. -/
def move_cursor_up (st : TerminalBuffer) (count : Nat) : TerminalBuffer :=
  { st with cursor_row := max (st.cursor_row - count) st.scroll_top }

/-- `write_char(c)`: deferred wrap, cell write with the current pen, column
advance. -/
def write_char (st : TerminalBuffer) (c : Char) : TerminalBuffer :=
  let st :=
    if st.cursor_col ≥ st.width then
      move_cursor_down { st with cursor_col := 0 } 1
    else st
  let st := { st with cells := (setCell st.cells st.cursor_row st.cursor_col
      (Cell.with_style c st.current_fg st.current_bg st.current_attrs)) }
  { st with cursor_col := st.cursor_col + 1 }

/-- `carriage_return()`. -/
def carriage_return (st : TerminalBuffer) : TerminalBuffer :=
  { st with cursor_col := 0 }

/-- `linefeed()`. -/
def linefeed (st : TerminalBuffer) : TerminalBuffer :=
  move_cursor_down st 1

/-- `backspace()`. -/
def backspace (st : TerminalBuffer) : TerminalBuffer :=
  if st.cursor_col > 0 then { st with cursor_col := st.cursor_col - 1 } else st

/-- `tab()` (the `u16` product wraps in a release build). -/
def tab (st : TerminalBuffer) : TerminalBuffer :=
  let next_tab := ((st.cursor_col / 8 + 1) * 8) % 65536
  { st with cursor_col := min next_tab (st.width - 1) }

/-- `reset_attributes()`. -/
def reset_attributes (st : TerminalBuffer) : TerminalBuffer :=
  { st with current_fg := Color.Reset, current_bg := Color.Reset,
            current_attrs := {} }

/-- `set_cursor_position(row, col)` (1-indexed input; origin mode selects the
clamp range; Rust `clamp(lo, hi)` is `min (max · lo) hi`). -/
def set_cursor_position (st : TerminalBuffer) (row col : Nat) : TerminalBuffer :=
  let row := row - 1
  let col := col - 1
  let min_row := if st.origin_mode then st.scroll_top else 0
  let max_row := if st.origin_mode then st.scroll_bottom else st.height - 1
  { st with
    cursor_row := min (max row min_row) max_row
    cursor_col := min col (st.width - 1) }

/-- `set_scroll_region(top, bottom)` (1-indexed input). -/
def set_scroll_region (st : TerminalBuffer) (top bottom : Nat) : TerminalBuffer :=
  let top := min (top - 1) (st.height - 1)
  let bottom := min (bottom - 1) (st.height - 1)
  if top < bottom then
    set_cursor_position { st with scroll_top := top, scroll_bottom := bottom } 1 1
  else st

/-- one iteration of the `insert_lines` loop body. -/
def insert_lines_step (st : TerminalBuffer) : TerminalBuffer :=
  let cells := ((List.range' (st.cursor_row + 1) (st.scroll_bottom - st.cursor_row)).reverse).foldl
      (fun cs r => swapIdx cs r (r - 1)) st.cells
  { st with cells := modifyRow cells st.cursor_row clearRow }

/-- `insert_lines(count)`. -/
def insert_lines (st : TerminalBuffer) (count : Nat) : TerminalBuffer :=
  if st.cursor_row < st.scroll_top ∨ st.cursor_row > st.scroll_bottom then st
  else repeatApply insert_lines_step count st

/-- one iteration of the `delete_lines` loop body. -/
def delete_lines_step (st : TerminalBuffer) : TerminalBuffer :=
  let cells := (List.range' st.cursor_row (st.scroll_bottom - st.cursor_row)).foldl
      (fun cs r => swapIdx cs r (r + 1)) st.cells
  { st with cells := modifyRow cells st.scroll_bottom clearRow }

/-- `delete_lines(count)`. -/
def delete_lines (st : TerminalBuffer) (count : Nat) : TerminalBuffer :=
  if st.cursor_row < st.scroll_top ∨ st.cursor_row > st.scroll_bottom then st
  else repeatApply delete_lines_step count st

/-- `delete_chars(count)`: shift the tail of the row left by `count`, filling
with defaults past the right edge (the source reads only indices above the
write index, so the sequential loop equals this pointwise description). -/
def delete_chars (st : TerminalBuffer) (count : Nat) : TerminalBuffer :=
  { st with cells := modifyRow st.cells st.cursor_row (fun row =>
      (List.range' st.cursor_col (st.width - st.cursor_col)).foldl
        (fun r col =>
          r.set col (if col + count < st.width
                     then row.getD (col + count) Cell.default
                     else Cell.default))
        row) }

/-- `insert_chars(count)`: the reversed swap loop followed by clearing the
inserted window. -/
def insert_chars (st : TerminalBuffer) (count : Nat) : TerminalBuffer :=
  { st with cells := modifyRow st.cells st.cursor_row (fun row =>
      let row := ((List.range' st.cursor_col (st.width - st.cursor_col)).reverse).foldl
        (fun r col => if col + count < st.width then swapIdx r col (col + count) else r)
        row
      clearColsRange row st.cursor_col (min (st.cursor_col + count) st.width)) }

/-- `erase_chars(count)`: blank the half-open column range from the cursor to
`cursor_col + count`, a `u16` sum that wraps in a release build. -/
def erase_chars (st : TerminalBuffer) (count : Nat) : TerminalBuffer :=
  { st with cells := modifyRow st.cells st.cursor_row (fun row =>
      clearColsRange row st.cursor_col ((st.cursor_col + count) % 65536)) }

end TerminalBuffer

/-! ### ANSI colour mapping (`buffer.rs` lines 594–628) -/

/-- `ansi_to_color(code)` (`code` is a `u16`; the `as u8` casts in the cube
and grayscale branches are the explicit `% 256`). -/
def ansi_to_color (code : Nat) : Color :=
  if code = 0 then Color.Black
  else if code = 1 then Color.Red
  else if code = 2 then Color.Green
  else if code = 3 then Color.Yellow
  else if code = 4 then Color.Blue
  else if code = 5 then Color.Magenta
  else if code = 6 then Color.Cyan
  else if code = 7 then Color.White
  else if code = 8 then Color.DarkGray
  else if code = 9 then Color.LightRed
  else if code = 10 then Color.LightGreen
  else if code = 11 then Color.LightYellow
  else if code = 12 then Color.LightBlue
  else if code = 13 then Color.LightMagenta
  else if code = 14 then Color.LightCyan
  else if code = 15 then Color.Gray
  else if 16 ≤ code ∧ code ≤ 231 then
    let c := code - 16
    Color.Rgb ((c / 36 * 51) % 256) ((c / 6 % 6 * 51) % 256) ((c % 6 * 51) % 256)
  else if 232 ≤ code ∧ code ≤ 255 then
    let gray := ((code - 232) * 10 + 8) % 256
    Color.Rgb gray gray gray
  else Color.Reset

namespace TerminalBuffer

/-! ### SGR (`buffer.rs` lines 500–591) -/

/-- the simple (single-parameter) SGR arms of the `match` in `handle_sgr`;
`38` and `48` are handled by the caller and never reach this function. -/
def sgrSimple (st : TerminalBuffer) (p : Nat) : TerminalBuffer :=
  if p = 0 then st.reset_attributes
  else if p = 1 then { st with current_attrs.bold := true }
  else if p = 2 then st
  else if p = 3 then { st with current_attrs.italic := true }
  else if p = 4 then { st with current_attrs.underline := true }
  else if p = 5 ∨ p = 6 then { st with current_attrs.blink := true }
  else if p = 7 then { st with current_attrs.reverse := true }
  else if p = 8 then { st with current_attrs.hidden := true }
  else if p = 9 then { st with current_attrs.strikethrough := true }
  else if p = 21 then { st with current_attrs.bold := false }
  else if p = 22 then { st with current_attrs.bold := false }
  else if p = 23 then { st with current_attrs.italic := false }
  else if p = 24 then { st with current_attrs.underline := false }
  else if p = 25 then { st with current_attrs.blink := false }
  else if p = 27 then { st with current_attrs.reverse := false }
  else if p = 28 then { st with current_attrs.hidden := false }
  else if p = 29 then { st with current_attrs.strikethrough := false }
  else if 30 ≤ p ∧ p ≤ 37 then { st with current_fg := ansi_to_color (p - 30) }
  else if p = 39 then { st with current_fg := Color.Reset }
  else if 40 ≤ p ∧ p ≤ 47 then { st with current_bg := ansi_to_color (p - 40) }
  else if p = 49 then { st with current_bg := Color.Reset }
  else if 90 ≤ p ∧ p ≤ 97 then { st with current_fg := ansi_to_color (p - 90 + 8) }
  else if 100 ≤ p ∧ p ≤ 107 then { st with current_bg := ansi_to_color (p - 100 + 8) }
  else st

/-- assign the extended colour chosen by a `38` (foreground) or `48`
(background) introducer. -/
def setExtColor (st : TerminalBuffer) (p : Nat) (col : Color) : TerminalBuffer :=
  if p = 38 then { st with current_fg := col } else { st with current_bg := col }

/-- the `while let Some(&param) = iter.next()` loop of `handle_sgr`: `38`/`48`
peek a mode, mode `5` consumes one palette index, mode `2` consumes up to
three components (each `as u8`, i.e. `% 256`, missing ones defaulting to 0). -/
def sgrLoop : TerminalBuffer → List Nat → TerminalBuffer
  | st, [] => st
  | st, p :: rest =>
    if p = 38 ∨ p = 48 then
      match rest with
      | [] => st
      | 5 :: rest2 =>
        match rest2 with
        | [] => st
        | c :: rest3 => sgrLoop (setExtColor st p (ansi_to_color c)) rest3
      | 2 :: rest2 =>
        match rest2 with
        | [] => sgrLoop (setExtColor st p (Color.Rgb 0 0 0)) []
        | [r] => sgrLoop (setExtColor st p (Color.Rgb (r % 256) 0 0)) []
        | [r, g] => sgrLoop (setExtColor st p (Color.Rgb (r % 256) (g % 256) 0)) []
        | r :: g :: b :: rest5 =>
          sgrLoop (setExtColor st p (Color.Rgb (r % 256) (g % 256) (b % 256))) rest5
      | _ :: rest2 => sgrLoop st rest2
    else sgrLoop (sgrSimple st p) rest

/-- `handle_sgr(params)`. -/
def handle_sgr (st : TerminalBuffer) (params : List Nat) : TerminalBuffer :=
  if params = [] then st.reset_attributes else sgrLoop st params

/-! ### Dispatch (`buffer.rs` lines 631–888) -/

/-- the DEC private mode loop shared by CSI `h` and `l` (`?25` cursor
visibility, `?6` origin mode). -/
def dec_private_modes (st : TerminalBuffer) (params : List Nat) (value : Bool) :
    TerminalBuffer :=
  params.foldl (fun st p =>
    if p = 25 then { st with cursor_visible := value }
    else if p = 6 then { st with origin_mode := value }
    else st) st

/-- `csi_dispatch(params, intermediates, action)`; `params` is the list of
first sub-parameters (all `u16`), `intermediates` the intermediate bytes.
The `u16` sums that can overflow carry an explicit `% 65536`. -/
def csi_dispatch (st : TerminalBuffer) (params : List Nat)
    (intermediates : List Nat) (action : Char) : TerminalBuffer :=
  if action = 'A' then
    st.move_cursor_up (max (params.headD 1) 1)
  else if action = 'B' ∨ action = 'e' then
    st.move_cursor_down (max (params.headD 1) 1)
  else if action = 'C' ∨ action = 'a' then
    let n := max (params.headD 1) 1
    { st with cursor_col := min ((st.cursor_col + n) % 65536) (st.width - 1) }
  else if action = 'D' then
    let n := max (params.headD 1) 1
    { st with cursor_col := st.cursor_col - n }
  else if action = 'E' then
    (st.move_cursor_down (max (params.headD 1) 1)).carriage_return
  else if action = 'F' then
    (st.move_cursor_up (max (params.headD 1) 1)).carriage_return
  else if action = 'G' ∨ action = '`' then
    let col := max (params.headD 1) 1
    { st with cursor_col := min (col - 1) (st.width - 1) }
  else if action = 'H' ∨ action = 'f' then
    st.set_cursor_position (params.headD 1) ((params.get? 1).getD 1)
  else if action = 'd' then
    st.set_cursor_position (params.headD 1) ((st.cursor_col + 1) % 65536)
  else if action = 'J' then
    if params.headD 0 = 0 then st.clear_to_end_of_screen
    else if params.headD 0 = 1 then st.clear_to_start_of_screen
    else if params.headD 0 = 2 ∨ params.headD 0 = 3 then st.clear
    else st
  else if action = 'K' then
    if params.headD 0 = 0 then st.clear_to_end_of_line
    else if params.headD 0 = 1 then st.clear_to_start_of_line
    else if params.headD 0 = 2 then st.clear_line
    else st
  else if action = 'L' then
    st.insert_lines (max (params.headD 1) 1)
  else if action = 'M' then
    st.delete_lines (max (params.headD 1) 1)
  else if action = 'P' then
    st.delete_chars (max (params.headD 1) 1)
  else if action = '@' then
    st.insert_chars (max (params.headD 1) 1)
  else if action = 'X' then
    st.erase_chars (max (params.headD 1) 1)
  else if action = 'S' then
    st.scroll_up (max (params.headD 1) 1)
  else if action = 'T' then
    st.scroll_down (max (params.headD 1) 1)
  else if action = 'r' then
    st.set_scroll_region (params.headD 1) ((params.get? 1).getD st.height)
  else if action = 'm' then
    st.handle_sgr params
  else if action = 'h' then
    if intermediates.head? = some 63 then dec_private_modes st params true else st
  else if action = 'l' then
    if intermediates.head? = some 63 then dec_private_modes st params false else st
  else if action = 's' then
    { st with saved_cursor := some (st.cursor_row, st.cursor_col) }
  else if action = 'u' then
    match st.saved_cursor with
    | some (row, col) => { st with cursor_row := row, cursor_col := col }
    | none => st
  else st

/-- `esc_dispatch(intermediates, byte)`: `7`/`8` save/restore, `D` index,
`E` next line, `M` reverse index, `c` reset (bytes are ASCII codes). -/
def esc_dispatch (st : TerminalBuffer) (intermediates : List Nat) (byte : Nat) :
    TerminalBuffer :=
  if intermediates ≠ [] then st
  else if byte = 55 then
    { st with saved_cursor := some (st.cursor_row, st.cursor_col) }
  else if byte = 56 then
    match st.saved_cursor with
    | some (row, col) => { st with cursor_row := row, cursor_col := col }
    | none => st
  else if byte = 68 then st.linefeed
  else if byte = 69 then st.linefeed.carriage_return
  else if byte = 77 then
    if st.cursor_row ≤ st.scroll_top then st.scroll_down 1
    else { st with cursor_row := st.cursor_row - 1 }
  else if byte = 99 then st.clear.reset_attributes
  else st

/-- `execute(byte)`: the C0 controls. -/
def execute (st : TerminalBuffer) (byte : Nat) : TerminalBuffer :=
  if byte = 7 then st
  else if byte = 8 then st.backspace
  else if byte = 9 then st.tab
  else if byte = 10 ∨ byte = 11 ∨ byte = 12 then st.linefeed
  else if byte = 13 then st.carriage_return
  else st

end TerminalBuffer

/-! ### Semantic operations

The byte-level `vte::Parser` is an external crate; the emulator is embedded at
the `vte::Perform` interface, one `Op` per semantic event, plus the `resize`
entry point of `TerminalBuffer`. -/

/-- a semantic event delivered to the emulator. -/
inductive Op where
  | Print (c : Char)
  | Execute (byte : Nat)
  | Csi (params : List Nat) (intermediates : List Nat) (action : Char)
  | Esc (intermediates : List Nat) (byte : Nat)
  | Resize (w h : Nat)
  deriving DecidableEq

/-- apply one semantic event (the `Perform` impl for `TerminalBuffer`). -/
def applyOp (st : TerminalBuffer) : Op → TerminalBuffer
  | Op.Print c => st.write_char c
  | Op.Execute b => st.execute b
  | Op.Csi ps is a => st.csi_dispatch ps is a
  | Op.Esc is b => st.esc_dispatch is b
  | Op.Resize w h => st.resize w h

/-- apply a sequence of semantic events in order. -/
def applyOps (st : TerminalBuffer) (ops : List Op) : TerminalBuffer :=
  ops.foldl applyOp st

/-! ### String helpers mirroring the `str` operations used by `protocol.rs`
and `app.rs` -/

/-- split a character list at the first occurrence of `sep`, if any
(the core of `str::splitn`). -/
def breakAtChar (sep : Char) : List Char → Option (List Char × List Char)
  | [] => none
  | c :: cs =>
    if c = sep then some ([], cs)
    else match breakAtChar sep cs with
         | some (a, b) => some (c :: a, b)
         | none => none

/-- `str::splitn(n, sep)`: at most `n` pieces, the last piece keeping any
remaining separators. -/
def splitnChar (sep : Char) : Nat → List Char → List (List Char)
  | 0, _ => []
  | 1, s => [s]
  | n + 2, s =>
    match breakAtChar sep s with
    | none => [s]
    | some (a, b) => a :: splitnChar sep (n + 1) b

/-- `str::split(sep)` (unbounded; empty input yields one empty piece, as in
Rust). -/
def splitAllChar (sep : Char) : List Char → List (List Char)
  | [] => [[]]
  | c :: cs =>
    let r := splitAllChar sep cs
    if c = sep then [] :: r else (c :: r.headD []) :: r.tail

/-- `line.starts_with('%')`. -/
def startsWithPercent (s : String) : Bool :=
  match s.toList with
  | '%' :: _ => true
  | _ => false

/-- `str::parse::<u64>()` as an `Option`: all-digit non-empty strings below
`2^64`. -/
def parseU64 (s : String) : Option Nat :=
  let cs := s.toList
  if cs ≠ [] ∧ cs.all Char.isDigit then
    let v := cs.foldl (fun a c => a * 10 + (c.toNat - 48)) 0
    if v < 2 ^ 64 then some v else none
  else none

/-- UTF-8 encoding of one scalar value (`char::encode_utf8`). -/
def utf8EncodeChar (c : Char) : List Nat :=
  let n := c.toNat
  if n < 128 then [n]
  else if n < 2048 then
    [192 + n / 64, 128 + n % 64]
  else if n < 65536 then
    [224 + n / 4096, 128 + n / 64 % 64, 128 + n % 64]
  else
    [240 + n / 262144, 128 + n / 4096 % 64, 128 + n / 64 % 64, 128 + n % 64]

/-! ### Protocol framing (`protocol.rs`) -/

/-- `ProtocolError`. -/
inductive ProtocolError where
  | InvalidFormat (msg : String)
  | UnknownType (msg : String)
  deriving DecidableEq

/-- `Notification`: one parsed control-mode line. -/
inductive Ntf where
  | Begin (id : Nat)
  | End (id : Nat)
  | Error (id : Nat)
  | Output (pane_id : String) (data : List Nat)
  | WindowAdd (window_id : String)
  | WindowClose (window_id : String)
  | WindowRenamed (window_id : String) (name : String)
  | SessionChanged (session_id : String) (name : String)
  | SessionsChanged
  | ClientSessionChanged (client : String) (session_id : String) (name : String)
  | LayoutChange (window_id : String) (layout : String)
  | PaneModeChanged (pane_id : String)
  | WindowPaneChanged (window_id : String) (pane_id : String)
  | UnlinkedWindowAdd (window_id : String)
  | ClientDetached (client : String) (reason : Option String)
  | Exit (reason : Option String)
  | Data (line : String)
  | Unknown (notification_type : String) (raw : String)
  deriving DecidableEq

/-- `TmuxEvent`: the driver-level event. -/
inductive TmuxEvent where
  | Output (pane_id : String) (data : List Nat)
  | WindowAdd (window_id : String)
  | WindowClose (window_id : String)
  | WindowRenamed (window_id : String) (name : String)
  | CommandResponse (id : Nat) (data : String)
  | CommandError (id : Nat) (message : String)
  | SessionChanged (session_id : String) (name : String)
  | Exit (reason : Option String)
  deriving DecidableEq

/-- whether a character is one of the octal digits collected by the `\0DD`
escape (`is_ascii_digit && < '8'`). -/
def isOctalDigit (c : Char) : Bool :=
  c.isDigit && decide (c < '8')

/-- value of a non-empty octal digit string (`u8::from_str_radix(s, 8)`,
which always succeeds here because only digits `0..7` are collected). -/
def octalValue (cs : List Char) : Nat :=
  cs.foldl (fun a c => a * 8 + (c.toNat - 48)) 0

/-- the escape-decoding loop of `decode_output`; the up-to-two-octal-digit
lookahead of the `\0DD` escape is inlined into the pattern match.  The first
argument is fuel, decremented exactly once per step; every step consumes at
least one character, so with fuel equal to the input length the fuel-exhausted
arm is unreachable and the function computes the source's loop. -/
def decodeOutputAux : Nat → List Char → List Nat
  | _, [] => []
  | 0, _ => []
  | fuel + 1, '\\' :: rest =>
    match rest with
    | [] => [92]
    | e :: rest2 =>
      if e = '\\' then 92 :: decodeOutputAux fuel rest2
      else if e = 'r' then 13 :: decodeOutputAux fuel rest2
      else if e = 'n' then 10 :: decodeOutputAux fuel rest2
      else if e = 't' then 9 :: decodeOutputAux fuel rest2
      else if e = '0' then
        match rest2 with
        | [] => []
        | d1 :: rest3 =>
          if isOctalDigit d1 then
            match rest3 with
            | [] => [octalValue [d1]]
            | d2 :: rest4 =>
              if isOctalDigit d2 then
                octalValue [d1, d2] :: decodeOutputAux fuel rest4
              else octalValue [d1] :: decodeOutputAux fuel rest3
          else decodeOutputAux fuel rest2
      else 92 :: (utf8EncodeChar e ++ decodeOutputAux fuel rest2)
  | fuel + 1, c :: rest => utf8EncodeChar c ++ decodeOutputAux fuel rest

/-- `decode_output(encoded)`: tmux escape decoding to raw bytes. -/
def decode_output (encoded : String) : List Nat :=
  decodeOutputAux encoded.toList.length encoded.toList

/-- the four whitespace-limited tokens of a notification line
(`line.splitn(4, ' ')`). -/
def lineParts (line : String) : List String :=
  (splitnChar ' ' 4 line.toList).map List.asString

/-- the notification tag: first token of the line. -/
def lineTag (line : String) : String :=
  (lineParts line).headD ""

/-- the `%` notification tags recognised by `Notification::parse`. -/
def knownTags : List String :=
  ["%begin", "%end", "%error", "%output", "%window-add", "%window-close",
   "%window-renamed", "%session-changed", "%layout-change",
   "%pane-mode-changed", "%sessions-changed", "%client-session-changed",
   "%window-pane-changed", "%unlinked-window-add", "%client-detached",
   "%exit"]

/-- `Notification::parse(line)`. -/
def Ntf.parse (line : String) : Except ProtocolError Ntf :=
  if ¬ startsWithPercent line then Except.ok (Ntf.Data line)
  else
    let parts := lineParts line
    let tag := parts.headD ""
    if tag = "%begin" then
      Except.ok (Ntf.Begin (((parts.get? 2).bind parseU64).getD 0))
    else if tag = "%end" then
      Except.ok (Ntf.End (((parts.get? 2).bind parseU64).getD 0))
    else if tag = "%error" then
      Except.ok (Ntf.Error (((parts.get? 2).bind parseU64).getD 0))
    else if tag = "%output" then
      match parts.get? 1 with
      | none => Except.error (ProtocolError.InvalidFormat "missing pane_id")
      | some pane_id =>
        Except.ok (Ntf.Output pane_id (((parts.get? 2).map decode_output).getD []))
    else if tag = "%window-add" then
      match parts.get? 1 with
      | none => Except.error (ProtocolError.InvalidFormat "missing window_id")
      | some window_id => Except.ok (Ntf.WindowAdd window_id)
    else if tag = "%window-close" then
      match parts.get? 1 with
      | none => Except.error (ProtocolError.InvalidFormat "missing window_id")
      | some window_id => Except.ok (Ntf.WindowClose window_id)
    else if tag = "%window-renamed" then
      match parts.get? 1 with
      | none => Except.error (ProtocolError.InvalidFormat "missing window_id")
      | some window_id =>
        Except.ok (Ntf.WindowRenamed window_id ((parts.get? 2).getD ""))
    else if tag = "%session-changed" then
      match parts.get? 1 with
      | none => Except.error (ProtocolError.InvalidFormat "missing session_id")
      | some session_id =>
        Except.ok (Ntf.SessionChanged session_id ((parts.get? 2).getD ""))
    else if tag = "%layout-change" then
      match parts.get? 1 with
      | none => Except.error (ProtocolError.InvalidFormat "missing window_id")
      | some window_id =>
        Except.ok (Ntf.LayoutChange window_id ((parts.get? 2).getD ""))
    else if tag = "%pane-mode-changed" then
      match parts.get? 1 with
      | none => Except.error (ProtocolError.InvalidFormat "missing pane_id")
      | some pane_id => Except.ok (Ntf.PaneModeChanged pane_id)
    else if tag = "%sessions-changed" then
      Except.ok Ntf.SessionsChanged
    else if tag = "%client-session-changed" then
      Except.ok (Ntf.ClientSessionChanged ((parts.get? 1).getD "")
        ((parts.get? 2).getD "") ((parts.get? 3).getD ""))
    else if tag = "%window-pane-changed" then
      Except.ok (Ntf.WindowPaneChanged ((parts.get? 1).getD "")
        ((parts.get? 2).getD ""))
    else if tag = "%unlinked-window-add" then
      Except.ok (Ntf.UnlinkedWindowAdd ((parts.get? 1).getD ""))
    else if tag = "%client-detached" then
      Except.ok (Ntf.ClientDetached ((parts.get? 1).getD "") (parts.get? 2))
    else if tag = "%exit" then
      Except.ok (Ntf.Exit (parts.get? 1))
    else
      Except.ok (Ntf.Unknown tag line)

/-! ### Control-mode driver (`connection.rs`) -/

/-- `response_buffer.join("\n")`. -/
def joinLines : List String → String
  | [] => ""
  | [s] => s
  | s :: rest => s ++ "\n" ++ joinLines rest

/-- the driver state relevant to `next_event`: the response buffer and the ID
being collected. -/
structure ConnState where
  response_buffer : List String
  collecting_for : Option Nat
  deriving DecidableEq

/-- the initial driver state (empty buffer, not collecting). -/
def ConnState.init : ConnState := { response_buffer := [], collecting_for := none }

/-- the body of `next_event`'s loop for one line: parse it (a parse failure is
propagated by the `?` operator as a fatal error), then either update the
collection state (`none`) or emit an event (`some`). -/
def connHandleLine (st : ConnState) (line : String) :
    Except ProtocolError (ConnState × Option TmuxEvent) :=
  match Ntf.parse line with
  | Except.error e => Except.error e
  | Except.ok n =>
    match n with
    | Ntf.Begin id =>
      Except.ok ({ response_buffer := [], collecting_for := some id }, none)
    | Ntf.End id =>
      if st.collecting_for = some id then
        Except.ok ({ response_buffer := [], collecting_for := none },
          some (TmuxEvent.CommandResponse id (joinLines st.response_buffer)))
      else Except.ok (st, none)
    | Ntf.Error id =>
      Except.ok ({ response_buffer := [], collecting_for := none },
        some (TmuxEvent.CommandError id (joinLines st.response_buffer)))
    | Ntf.Data d =>
      if st.collecting_for.isSome then
        Except.ok ({ st with response_buffer := st.response_buffer ++ [d] }, none)
      else Except.ok (st, none)
    | Ntf.Output pane_id data => Except.ok (st, some (TmuxEvent.Output pane_id data))
    | Ntf.WindowAdd w => Except.ok (st, some (TmuxEvent.WindowAdd w))
    | Ntf.WindowClose w => Except.ok (st, some (TmuxEvent.WindowClose w))
    | Ntf.WindowRenamed w n => Except.ok (st, some (TmuxEvent.WindowRenamed w n))
    | Ntf.SessionChanged s n => Except.ok (st, some (TmuxEvent.SessionChanged s n))
    | Ntf.Exit r => Except.ok (st, some (TmuxEvent.Exit r))
    | Ntf.LayoutChange _ _ => Except.ok (st, none)
    | Ntf.PaneModeChanged _ => Except.ok (st, none)
    | Ntf.SessionsChanged => Except.ok (st, none)
    | Ntf.ClientSessionChanged _ _ _ => Except.ok (st, none)
    | Ntf.WindowPaneChanged _ _ => Except.ok (st, none)
    | Ntf.UnlinkedWindowAdd _ => Except.ok (st, none)
    | Ntf.ClientDetached _ _ => Except.ok (st, none)
    | Ntf.Unknown _ _ => Except.ok (st, none)

/-- one call of `next_event` fed from a list of pending stdout lines: loop
over lines until an event is emitted (`ok (some …)` with the remaining lines),
the input is exhausted (`ok none`, the EOF/`Closed` case), or a parse failure
is propagated (`error`). -/
def nextEventFromLines :
    ConnState → List String → Except ProtocolError (Option (TmuxEvent × ConnState × List String))
  | _, [] => Except.ok none
  | st, l :: ls =>
    match connHandleLine st l with
    | Except.error e => Except.error e
    | Except.ok (st', some ev) => Except.ok (some (ev, st', ls))
    | Except.ok (st', none) => nextEventFromLines st' ls

/-- repeated `next_event` calls over a whole list of lines, collecting every
emitted event in order. -/
def driveAll : ConnState → List String → Except ProtocolError (List TmuxEvent)
  | _, [] => Except.ok []
  | st, l :: ls =>
    match connHandleLine st l with
    | Except.error e => Except.error e
    | Except.ok (st', some ev) => (driveAll st' ls).map (fun evs => ev :: evs)
    | Except.ok (st', none) => driveAll st' ls

/-! ### Tab registry (`app.rs`)

The `HashMap<String, Tab>` is modelled as an association list together with
the operations the source uses: `get` (lookup), `get_mut` + field update /
`insert` (both are `alistInsert`), `retain` (filter), `contains_key`. -/

/-- a tab: one tmux window with its owned emulator buffer. -/
structure Tab where
  window_id : String
  pane_id : String
  name : String
  buffer : TerminalBuffer
  activity : Bool
  deriving DecidableEq

/-- `Tab::new`. -/
def Tab.new (window_id pane_id name : String) (width height : Nat) : Tab where
  window_id := window_id
  pane_id := pane_id
  name := name
  buffer := TerminalBuffer.new width height
  activity := false

/-- `HashMap::get`. -/
def alistLookup : List (String × Tab) → String → Option Tab
  | [], _ => none
  | kv :: rest, k => if kv.1 = k then some kv.2 else alistLookup rest k

/-- `HashMap::insert` / in-place update through `get_mut`: replace the value
at the key if present, otherwise append the binding. -/
def alistInsert : List (String × Tab) → String → Tab → List (String × Tab)
  | [], k, v => [(k, v)]
  | kv :: rest, k, v =>
    if kv.1 = k then (k, v) :: rest else kv :: alistInsert rest k v

/-- `App`: the application state. -/
structure App where
  tabs : List (String × Tab)
  tab_order : List String
  active_window_id : Option String
  viewport_width : Nat
  viewport_height : Nat
  deriving DecidableEq

/-- `App::new`. -/
def App.new (viewport_width viewport_height : Nat) : App where
  tabs := []
  tab_order := []
  active_window_id := none
  viewport_width := viewport_width
  viewport_height := viewport_height

/-- `str::lines`: split on `\n`, dropping a final empty piece produced by a
trailing newline and stripping one trailing `\r` from each line. -/
def rustLines (s : String) : List String :=
  let ps := splitAllChar '\n' s.toList
  let ps := if ps.getLast? = some [] then ps.dropLast else ps
  ps.map (fun cs =>
    (match cs.reverse with
     | '\r' :: t => t.reverse
     | _ => cs).asString)

/-- parse one `window_id:name:active:pane_id` line of the list-windows
response; lines with fewer than 4 `:`-separated fields are skipped. -/
def parseWindowLine (line : String) :
    Option (String × String × Bool × String) :=
  let parts := (splitAllChar ':' line.toList).map List.asString
  if parts.length ≥ 4 then
    some (parts.getD 0 "", parts.getD 1 "", parts.getD 2 "" = "1", parts.getD 3 "")
  else none

/-- accumulator of the `process_window_list` loop. -/
structure WLAcc where
  tabs : List (String × Tab)
  order : List String
  seen : List String
  active : Option String

/-- one iteration of the `process_window_list` loop: record the id in `seen`
and the order, remember the active window, and update the existing tab's
metadata (keeping its buffer) or create a fresh tab at viewport size. -/
def processWLLine (vw vh : Nat) (acc : WLAcc) (line : String) : WLAcc :=
  match parseWindowLine line with
  | none => acc
  | some (window_id, name, is_active, pane_id) =>
    { tabs :=
        match alistLookup acc.tabs window_id with
        | some tab =>
          alistInsert acc.tabs window_id { tab with name := name, pane_id := pane_id }
        | none =>
          alistInsert acc.tabs window_id (Tab.new window_id pane_id name vw vh)
      order := acc.order ++ [window_id]
      seen := acc.seen ++ [window_id]
      active := if is_active then some window_id else acc.active }

/-- `App::process_window_list(data)`. -/
def App.process_window_list (app : App) (data : String) : App :=
  let acc := (rustLines data).foldl
    (processWLLine app.viewport_width app.viewport_height)
    { tabs := app.tabs, order := [], seen := [], active := none }
  { app with
    tabs := acc.tabs.filter (fun kv => acc.seen.contains kv.1)
    tab_order := acc.order
    active_window_id := acc.active }

/-- `App::active_pane_id`. -/
def App.active_pane_id (app : App) : Option String :=
  (app.active_window_id.bind (alistLookup app.tabs)).map (fun t => t.pane_id)

/-- `App::process_output(pane_id, data)`: the emulator input is given at the
semantic-event level (see `Op`); `tab_by_pane_mut` is the `find?` over the
tab values. -/
def App.process_output (app : App) (pane_id : String) (events : List Op) : App :=
  let is_active := app.active_pane_id = some pane_id
  match app.tabs.find? (fun kv => kv.2.pane_id = pane_id) with
  | some kv =>
    let tab := kv.2
    let tab := { tab with
      buffer := applyOps tab.buffer events
      activity := if ¬ is_active then true else tab.activity }
    { app with tabs := alistInsert app.tabs kv.1 tab }
  | none => app

deriving instance DecidableEq for Except

/-! ## Supporting lemmas -/

theorem repeatApply_pres {α : Type _} {β : Type _} (f : α → α) (P : α → β)
    (h : ∀ a, P (f a) = P a) : ∀ (n : Nat) (a : α), P (repeatApply f n a) = P a
  | 0, _ => rfl
  | n + 1, a => by
    show P (repeatApply f n (f a)) = P a
    rw [repeatApply_pres f P h n (f a), h a]

theorem length_swapIdx (l : List α) (i j : Nat) :
    (swapIdx l i j).length = l.length := by
  unfold swapIdx
  split
  · simp
  · rfl

theorem mem_swapIdx {l : List α} {i j : Nat} {x : α}
    (hx : x ∈ swapIdx l i j) : x ∈ l := by
  unfold swapIdx at hx
  split at hx
  next a b ha hb =>
    rcases List.mem_or_eq_of_mem_set hx with h | h
    · rcases List.mem_or_eq_of_mem_set h with h' | h'
      · exact h'
      · exact h' ▸ List.getElem?_mem (by simpa using hb)
    · exact h ▸ List.getElem?_mem (by simpa using ha)
  next => exact hx

theorem length_modifyRow (cells : List (List Cell)) (r : Nat)
    (f : List Cell → List Cell) : (modifyRow cells r f).length = cells.length := by
  unfold modifyRow
  split
  · simp
  · rfl

theorem mem_modifyRow {cells : List (List Cell)} {r : Nat}
    {f : List Cell → List Cell} {x : List Cell}
    (hx : x ∈ modifyRow cells r f) : x ∈ cells ∨ ∃ row ∈ cells, x = f row := by
  unfold modifyRow at hx
  split at hx
  next row hrow =>
    rcases List.mem_or_eq_of_mem_set hx with h | h
    · exact Or.inl h
    · exact Or.inr ⟨row, List.getElem?_mem (by simpa using hrow), h⟩
  next => exact Or.inl hx

theorem length_clearRow (row : List Cell) : (clearRow row).length = row.length := by
  simp [clearRow]

/-- length of the grid is preserved by one scroll-up step. -/
theorem scroll_up_step_cells_length (st : TerminalBuffer) :
    (TerminalBuffer.scroll_up_step st).cells.length = st.cells.length := by
  unfold TerminalBuffer.scroll_up_step
  have hfold : ∀ (l : List Nat) (cs : List (List Cell)),
      (l.foldl (fun cs r => swapIdx cs r (r + 1)) cs).length = cs.length := by
    intro l
    induction l with
    | nil => intro cs; rfl
    | cons a l ih => intro cs; rw [List.foldl_cons, ih, length_swapIdx]
  split <;> simp [length_modifyRow, hfold]

/-- row lengths are preserved by one scroll-up step. -/
theorem scroll_up_step_rows (st : TerminalBuffer) (w : Nat)
    (h : ∀ row ∈ st.cells, row.length = w) :
    ∀ row ∈ (TerminalBuffer.scroll_up_step st).cells, row.length = w := by
  unfold TerminalBuffer.scroll_up_step
  have hfold : ∀ (l : List Nat) (cs : List (List Cell)),
      (∀ row ∈ cs, row.length = w) →
      ∀ row ∈ (l.foldl (fun cs r => swapIdx cs r (r + 1)) cs), row.length = w := by
    intro l
    induction l with
    | nil => intro cs h; exact h
    | cons a l ih =>
      intro cs h
      rw [List.foldl_cons]
      exact ih _ (fun row hrow => h row (mem_swapIdx hrow))
  intro row hrow
  split at hrow <;>
  · dsimp only at hrow
    rcases mem_modifyRow hrow with h' | ⟨row', hrow', rfl⟩
    · exact hfold _ _ h row h'
    · rw [length_clearRow]
      exact hfold _ _ h row' hrow'

/-- scroll-up affects only the grid and the scrollback. -/
theorem scroll_up_step_fields (st : TerminalBuffer) :
    (TerminalBuffer.scroll_up_step st).cursor_row = st.cursor_row ∧
    (TerminalBuffer.scroll_up_step st).cursor_col = st.cursor_col ∧
    (TerminalBuffer.scroll_up_step st).scroll_top = st.scroll_top ∧
    (TerminalBuffer.scroll_up_step st).scroll_bottom = st.scroll_bottom ∧
    (TerminalBuffer.scroll_up_step st).width = st.width ∧
    (TerminalBuffer.scroll_up_step st).height = st.height ∧
    (TerminalBuffer.scroll_up_step st).current_fg = st.current_fg ∧
    (TerminalBuffer.scroll_up_step st).current_bg = st.current_bg ∧
    (TerminalBuffer.scroll_up_step st).current_attrs = st.current_attrs := by
  unfold TerminalBuffer.scroll_up_step
  split <;> simp

/-- unfolding equation for `move_cursor_down` (successor case). -/
theorem move_cursor_down_succ (st : TerminalBuffer) (n : Nat) :
    st.move_cursor_down (n + 1) =
      TerminalBuffer.move_cursor_down
        (if st.cursor_row ≥ st.scroll_bottom
         then st.scroll_up 1
         else { st with cursor_row := st.cursor_row + 1 }) n := rfl

/-- `move_cursor_down` below the scroll bottom just adds to the row. -/
theorem move_cursor_down_no_scroll (st : TerminalBuffer) (n : Nat)
    (h : st.cursor_row + n ≤ st.scroll_bottom) :
    st.move_cursor_down n = { st with cursor_row := st.cursor_row + n } := by
  induction n generalizing st with
  | zero => rfl
  | succ n ih =>
    rw [move_cursor_down_succ]
    have hlt : ¬ st.cursor_row ≥ st.scroll_bottom := by omega
    rw [if_neg hlt]
    rw [ih { st with cursor_row := st.cursor_row + 1 } (by simpa using by omega)]
    simp [Nat.add_assoc, Nat.add_comm 1 n]

/-- the row reached by `move_cursor_down` when starting inside the scroll
region: `min (row + n) scroll_bottom`. -/
theorem move_cursor_down_row (st : TerminalBuffer) (n : Nat)
    (h : st.cursor_row ≤ st.scroll_bottom) :
    (st.move_cursor_down n).cursor_row = min (st.cursor_row + n) st.scroll_bottom := by
  induction n generalizing st with
  | zero =>
    show st.cursor_row = min (st.cursor_row + 0) st.scroll_bottom
    rw [Nat.add_zero, Nat.min_eq_left h]
  | succ n ih =>
    rw [move_cursor_down_succ]
    by_cases hb : st.cursor_row ≥ st.scroll_bottom
    · have heq : st.cursor_row = st.scroll_bottom := le_antisymm h hb
      rw [if_pos hb]
      have h1 : (st.scroll_up 1).cursor_row = st.cursor_row :=
        repeatApply_pres _ _ (fun a => (scroll_up_step_fields a).1) 1 st
      have h2 : (st.scroll_up 1).scroll_bottom = st.scroll_bottom :=
        repeatApply_pres _ _ (fun a => (scroll_up_step_fields a).2.2.2.1) 1 st
      rw [ih (st.scroll_up 1) (by rw [h1, h2]; exact h), h1, h2, heq]
      omega
    · rw [if_neg hb]
      have hlt : st.cursor_row < st.scroll_bottom := by omega
      rw [ih { st with cursor_row := st.cursor_row + 1 } (by simpa using hlt)]
      simp only
      omega

/-- CSI `B` (and `e`) with an explicit positive parameter dispatches to
`move_cursor_down`. -/
theorem csi_cud_eq (st : TerminalBuffer) (n : Nat) (hn : 1 ≤ n) :
    st.csi_dispatch [n] [] 'B' = st.move_cursor_down n ∧
    st.csi_dispatch [n] [] 'e' = st.move_cursor_down n := by
  constructor <;>
    simp [TerminalBuffer.csi_dispatch, Nat.max_eq_left hn]

/-- n line feeds equal `move_cursor_down n`. -/
theorem lf_iter (st : TerminalBuffer) (n : Nat) :
    applyOps st (List.replicate n (Op.Execute 10)) = st.move_cursor_down n := by
  induction n generalizing st with
  | zero => rfl
  | succ n ih =>
    rw [List.replicate_succ]
    show applyOps (applyOp st (Op.Execute 10)) (List.replicate n (Op.Execute 10))
      = st.move_cursor_down (n + 1)
    rw [ih]
    rfl

/-! ## Claim C1 — CSI CUD -/

/-- Claim C1 as stated is false at a concrete input: on a fresh 2×2 buffer
with the cursor already at `scroll_bottom`, CSI `1 B` keeps
`cursor_row = scroll_bottom` but scrolls — the cell grid and the scrollback
both change, while the claim asserts they are unchanged. -/
theorem claim1_counterexample :
    let st2 := applyOps (TerminalBuffer.new 2 2) [Op.Print 'A', Op.Csi [] [] 'B']
    let st3 := st2.csi_dispatch [1] [] 'B'
    st2.cursor_row = 1 ∧ st2.scroll_bottom = 1 ∧ st3.cursor_row = 1 ∧
    ¬ st3.cells = st2.cells ∧ ¬ st3.scrollback = st2.scrollback := by decide

/-- Claim C1, amended to what the code does: CSI `n B` / `n e` run the same
`move_cursor_down` helper as LF (they equal `n` line feeds); for a cursor
inside the scroll region the row becomes `min (row + n) scroll_bottom` (so it
never passes `scroll_bottom`), and the grid and scrollback are unchanged
exactly when `row + n` stays at or above the scroll bottom — at
`scroll_bottom` every further step scrolls, as LF does. -/
theorem claim1_amended (st : TerminalBuffer) (n : Nat) (hn : 1 ≤ n)
    (hrow : st.cursor_row ≤ st.scroll_bottom) :
    st.csi_dispatch [n] [] 'B' = st.move_cursor_down n ∧
    st.csi_dispatch [n] [] 'e' = st.move_cursor_down n ∧
    st.csi_dispatch [n] [] 'B' = applyOps st (List.replicate n (Op.Execute 10)) ∧
    (st.move_cursor_down n).cursor_row = min (st.cursor_row + n) st.scroll_bottom ∧
    (st.cursor_row + n ≤ st.scroll_bottom →
      (st.move_cursor_down n).cells = st.cells ∧
      (st.move_cursor_down n).scrollback = st.scrollback) := by
  refine ⟨(csi_cud_eq st n hn).1, (csi_cud_eq st n hn).2, ?_, ?_, ?_⟩
  · rw [(csi_cud_eq st n hn).1, lf_iter]
  · exact move_cursor_down_row st n hrow
  · intro h
    rw [move_cursor_down_no_scroll st n h]
    exact ⟨rfl, rfl⟩

/-- witness for `claim1_amended` at a fresh 3×3 buffer and `n = 1`. -/
theorem claim1_amended_witness :
    ((TerminalBuffer.new 3 3).move_cursor_down 1).cursor_row
      = min ((TerminalBuffer.new 3 3).cursor_row + 1) (TerminalBuffer.new 3 3).scroll_bottom :=
  (claim1_amended (TerminalBuffer.new 3 3) 1 (by decide) (by decide)).2.2.2.1

/-! ## Claim C4 — cursor bounds invariant -/

/-- Claim C4 is false of the code: saving the cursor at `(3, 3)` on a 4×4
buffer, resizing to 2×2 (which clamps the live cursor but not the saved
slot), and then restoring puts the cursor at row 3 and column 3, outside the
2×2 grid — `cursor_row < height` and `cursor_col ≤ width` both fail. -/
theorem claim4_code_bug :
    (applyOps (TerminalBuffer.new 4 4)
      [Op.Csi [4, 4] [] 'H', Op.Csi [] [] 's', Op.Resize 2 2,
       Op.Csi [] [] 'u']).cursor_row = 3 ∧
    (applyOps (TerminalBuffer.new 4 4)
      [Op.Csi [4, 4] [] 'H', Op.Csi [] [] 's', Op.Resize 2 2,
       Op.Csi [] [] 'u']).cursor_col = 3 ∧
    (applyOps (TerminalBuffer.new 4 4)
      [Op.Csi [4, 4] [] 'H', Op.Csi [] [] 's', Op.Resize 2 2,
       Op.Csi [] [] 'u']).height = 2 ∧
    (applyOps (TerminalBuffer.new 4 4)
      [Op.Csi [4, 4] [] 'H', Op.Csi [] [] 's', Op.Resize 2 2,
       Op.Csi [] [] 'u']).width = 2 ∧
    ¬ (applyOps (TerminalBuffer.new 4 4)
      [Op.Csi [4, 4] [] 'H', Op.Csi [] [] 's', Op.Resize 2 2,
       Op.Csi [] [] 'u']).cursor_row < (applyOps (TerminalBuffer.new 4 4)
      [Op.Csi [4, 4] [] 'H', Op.Csi [] [] 's', Op.Resize 2 2,
       Op.Csi [] [] 'u']).height ∧
    ¬ (applyOps (TerminalBuffer.new 4 4)
      [Op.Csi [4, 4] [] 'H', Op.Csi [] [] 's', Op.Resize 2 2,
       Op.Csi [] [] 'u']).cursor_col ≤ (applyOps (TerminalBuffer.new 4 4)
      [Op.Csi [4, 4] [] 'H', Op.Csi [] [] 's', Op.Resize 2 2,
       Op.Csi [] [] 'u']).width := by decide

/-! ## Claim C5 — ESC c (RIS) -/

/-- Claim C5 is false at a concrete input: after enabling origin mode, hiding
the cursor and setting scroll region `[1, 2]` on a 4×4 buffer, ESC `c` leaves
origin mode on, the cursor hidden and the scroll region at `[1, 2]`, none of
which are the initial values `false` / `true` / `[0, 3]`. -/
theorem claim5_counterexample :
    let st := applyOps (TerminalBuffer.new 4 4)
      [Op.Csi [6] [63] 'h', Op.Csi [25] [63] 'l', Op.Csi [2, 3] [] 'r', Op.Esc [] 99]
    st.origin_mode = true ∧ st.cursor_visible = false ∧
    st.scroll_top = 1 ∧ st.scroll_bottom = 2 ∧
    (TerminalBuffer.new 4 4).origin_mode = false ∧
    (TerminalBuffer.new 4 4).cursor_visible = true ∧
    (TerminalBuffer.new 4 4).scroll_top = 0 ∧
    (TerminalBuffer.new 4 4).scroll_bottom = 3 := by decide

/-- Claim C5, amended to what the code does: ESC `c` clears every cell of the
grid to the default cell, homes the cursor to `(0, 0)` and resets the pen
(fg, bg, attribute flags) — but it leaves origin mode, cursor visibility, the
scroll region, the saved cursor and the dimensions unchanged. -/
theorem claim5_amended (st : TerminalBuffer)
    (hlen : st.cells.length = st.height)
    (hrows : ∀ row ∈ st.cells, row.length = st.width) :
    (∀ r c, r < st.height → c < st.width →
      (st.esc_dispatch [] 99).get_cell r c = some Cell.default) ∧
    (st.esc_dispatch [] 99).cursor_row = 0 ∧
    (st.esc_dispatch [] 99).cursor_col = 0 ∧
    (st.esc_dispatch [] 99).current_fg = Color.Reset ∧
    (st.esc_dispatch [] 99).current_bg = Color.Reset ∧
    (st.esc_dispatch [] 99).current_attrs = {} ∧
    (st.esc_dispatch [] 99).origin_mode = st.origin_mode ∧
    (st.esc_dispatch [] 99).cursor_visible = st.cursor_visible ∧
    (st.esc_dispatch [] 99).scroll_top = st.scroll_top ∧
    (st.esc_dispatch [] 99).scroll_bottom = st.scroll_bottom ∧
    (st.esc_dispatch [] 99).saved_cursor = st.saved_cursor ∧
    (st.esc_dispatch [] 99).width = st.width ∧
    (st.esc_dispatch [] 99).height = st.height := by
  have hd : st.esc_dispatch [] 99 = st.clear.reset_attributes := by
    simp [TerminalBuffer.esc_dispatch]
  rw [hd]
  refine ⟨?_, rfl, rfl, rfl, rfl, rfl, rfl, rfl, rfl, rfl, rfl, rfl, rfl⟩
  intro r c hr hc
  show ((st.cells.map clearRow).get? r).bind (fun row => row.get? c) = some Cell.default
  cases hx : st.cells.get? r with
  | none =>
    exfalso
    rw [List.get?_eq_getElem?, List.getElem?_eq_none_iff] at hx
    omega
  | some row =>
    have hmem : row ∈ st.cells := by
      rw [List.get?_eq_getElem?] at hx
      exact List.getElem?_mem hx
    have hrl : row.length = st.width := hrows row hmem
    rw [List.get?_eq_getElem?] at hx ⊢
    rw [List.getElem?_map, hx]
    show (clearRow row).get? c = some Cell.default
    rw [List.get?_eq_getElem?]
    unfold clearRow
    rw [List.getElem?_map]
    cases hy : row[c]? with
    | none =>
      rw [List.getElem?_eq_none_iff] at hy
      omega
    | some cell => simp [hy]

/-- witness for `claim5_amended` at a fresh 2×2 buffer. -/
theorem claim5_amended_witness :
    ((TerminalBuffer.new 2 2).esc_dispatch [] 99).get_cell 0 0 = some Cell.default ∧
    ((TerminalBuffer.new 2 2).esc_dispatch [] 99).origin_mode
      = (TerminalBuffer.new 2 2).origin_mode :=
  ⟨(claim5_amended (TerminalBuffer.new 2 2) (by decide) (by decide)).1
      0 0 (by decide) (by decide),
   (claim5_amended (TerminalBuffer.new 2 2) (by decide) (by decide)).2.2.2.2.2.2.1⟩

/-! ## Claim C10 — u16 overflow in CSI arithmetic -/

/-- Claim C10 is false of the code: with the cursor at column 1 of a 10×4
buffer, CSI `65535 C` computes `cursor_col + n = 65536`, which overflows
`u16` (a panic in a debug build); under release wrap-around the cursor ends
at column 0 — CUF moves the cursor backwards.  Likewise CSI `65535 X`
computes a wrapped end column of 0 and erases nothing at all. -/
theorem claim10_code_bug :
    (applyOps (TerminalBuffer.new 10 4) [Op.Print 'A']).cursor_col = 1 ∧
    65536 ≤ (applyOps (TerminalBuffer.new 10 4) [Op.Print 'A']).cursor_col + 65535 ∧
    ((applyOps (TerminalBuffer.new 10 4) [Op.Print 'A']).csi_dispatch
      [65535] [] 'C').cursor_col = 0 ∧
    ((applyOps (TerminalBuffer.new 10 4) [Op.Print 'A']).csi_dispatch
      [65535] [] 'X').cells
      = (applyOps (TerminalBuffer.new 10 4) [Op.Print 'A']).cells ∧
    (applyOps (TerminalBuffer.new 10 4) [Op.Print 'A']).get_cell 0 0
      = some (Cell.with_style 'A' Color.Reset Color.Reset {}) := by
  decide

/-! ## Claim C2 — response demultiplexing (scenario S4) -/

/-- Claim C2: feeding the driver the five lines of scenario S4 yields exactly
the two events `Output("%0", "hi")` (the UTF-8 bytes `[104, 105]`), delivered
immediately from inside the Begin/End bracket, followed by
`CommandResponse(1, "data-line-A\ndata-line-B")`; the first `next_event`
call stops at the `%output` line with the collector still armed for id 1 and
the data lines still pending, and the second consumes the remaining lines to
the `%end`. -/
theorem claim2_s4_demux :
    driveAll ConnState.init
        ["%begin 1 1 0", "%output %0 hi", "data-line-A", "data-line-B", "%end 1 1 0"]
      = Except.ok [TmuxEvent.Output "%0" [104, 105],
          TmuxEvent.CommandResponse 1 "data-line-A\ndata-line-B"] ∧
    nextEventFromLines ConnState.init
        ["%begin 1 1 0", "%output %0 hi", "data-line-A", "data-line-B", "%end 1 1 0"]
      = Except.ok (some (TmuxEvent.Output "%0" [104, 105],
          { response_buffer := [], collecting_for := some 1 },
          ["data-line-A", "data-line-B", "%end 1 1 0"])) ∧
    nextEventFromLines { response_buffer := [], collecting_for := some 1 }
        ["data-line-A", "data-line-B", "%end 1 1 0"]
      = Except.ok (some (TmuxEvent.CommandResponse 1 "data-line-A\ndata-line-B",
          { response_buffer := [], collecting_for := none }, [])) := by
  decide

/-! ## Claim C3 — protocol error recovery -/

/-- Claim C3 is false at a concrete input: a `%output` line with no pane-id
field makes `Notification::parse` return an error, which `next_event`
propagates through `?` as a fatal protocol error instead of surfacing the
line as `Unknown` and continuing. -/
theorem claim3_counterexample :
    Ntf.parse "%output" = Except.error (ProtocolError.InvalidFormat "missing pane_id") ∧
    nextEventFromLines ConnState.init ["%output"]
      = Except.error (ProtocolError.InvalidFormat "missing pane_id") ∧
    (Ntf.parse "%window-add"
      = Except.error (ProtocolError.InvalidFormat "missing window_id")) := by
  decide

/-- Claim C3, amended to what the code does: only a line whose `%` tag is not
one of the recognised notification types is recovered locally — it parses to
`Unknown{type, raw}`, the `next_event` loop ignores it and continues with the
following lines.  A recognised tag with a missing required field (for example
`%output` with no pane-id) instead yields a `ProtocolError` that `next_event`
propagates as a fatal error. -/
theorem claim3_amended (line : String) (st : ConnState)
    (h1 : startsWithPercent line = true)
    (h2 : lineTag line ∉ knownTags) :
    Ntf.parse line = Except.ok (Ntf.Unknown (lineTag line) line) ∧
    connHandleLine st line = Except.ok (st, none) ∧
    ∀ ls, nextEventFromLines st (line :: ls) = nextEventFromLines st ls := by
  simp only [knownTags, List.mem_cons, List.not_mem_nil, or_false] at h2
  push_neg at h2
  obtain ⟨n1, n2, n3, n4, n5, n6, n7, n8, n9, n10, n11, n12, n13, n14, n15, n16⟩ := h2
  have hp : Ntf.parse line = Except.ok (Ntf.Unknown (lineTag line) line) := by
    unfold Ntf.parse
    rw [if_neg (by simp [h1])]
    simp only [lineTag, List.headD_eq_head?_getD]
      at n1 n2 n3 n4 n5 n6 n7 n8 n9 n10 n11 n12 n13 n14 n15 n16 ⊢
    simp [n1, n2, n3, n4, n5, n6, n7, n8, n9, n10, n11, n12, n13, n14, n15, n16]
  have hc : connHandleLine st line = Except.ok (st, none) := by
    unfold connHandleLine
    rw [hp]
  refine ⟨hp, hc, ?_⟩
  intro ls
  simp only [nextEventFromLines, hc]

/-- witness for `claim3_amended` on the unrecognised line `"%bogus a b"`. -/
theorem claim3_amended_witness :
    Ntf.parse "%bogus a b" = Except.ok (Ntf.Unknown "%bogus" "%bogus a b") ∧
    connHandleLine ConnState.init "%bogus a b" = Except.ok (ConnState.init, none) := by
  have h := claim3_amended "%bogus a b" ConnState.init (by decide) (by decide)
  exact ⟨by rw [h.1]; decide, h.2.1⟩

/-! ## Claim C9 — SGR extended colours -/

set_option maxRecDepth 10000

/-- Claim C9: in SGR handling, `38`/`48` followed by `5` consume exactly one
further parameter as a 256-palette index; followed by `2` they consume three
further parameters as R, G, B each taken `mod 256`, with missing trailing
components defaulting to 0; `39`/`49` restore the default foreground /
background; palette indices 16–231 map to the 6×6×6 cube at step 51 (so 196
is deep red `RGB(255, 0, 0)`) and 232–255 to the grayscale
`(n − 232)·10 + 8`. -/
theorem claim9_sgr :
    (∀ (st : TerminalBuffer) (n : Nat) (rest : List Nat),
      TerminalBuffer.sgrLoop st (38 :: 5 :: n :: rest)
        = TerminalBuffer.sgrLoop { st with current_fg := ansi_to_color n } rest) ∧
    (∀ (st : TerminalBuffer) (n : Nat) (rest : List Nat),
      TerminalBuffer.sgrLoop st (48 :: 5 :: n :: rest)
        = TerminalBuffer.sgrLoop { st with current_bg := ansi_to_color n } rest) ∧
    (∀ (st : TerminalBuffer) (r g b : Nat) (rest : List Nat),
      TerminalBuffer.sgrLoop st (38 :: 2 :: r :: g :: b :: rest)
        = TerminalBuffer.sgrLoop
            { st with current_fg := Color.Rgb (r % 256) (g % 256) (b % 256) } rest) ∧
    (∀ (st : TerminalBuffer) (r g b : Nat) (rest : List Nat),
      TerminalBuffer.sgrLoop st (48 :: 2 :: r :: g :: b :: rest)
        = TerminalBuffer.sgrLoop
            { st with current_bg := Color.Rgb (r % 256) (g % 256) (b % 256) } rest) ∧
    (∀ st : TerminalBuffer,
      st.handle_sgr [38, 2] = { st with current_fg := Color.Rgb 0 0 0 }) ∧
    (∀ (st : TerminalBuffer) (r : Nat),
      st.handle_sgr [38, 2, r] = { st with current_fg := Color.Rgb (r % 256) 0 0 }) ∧
    (∀ (st : TerminalBuffer) (r g : Nat),
      st.handle_sgr [38, 2, r, g]
        = { st with current_fg := Color.Rgb (r % 256) (g % 256) 0 }) ∧
    (∀ (st : TerminalBuffer) (rest : List Nat),
      TerminalBuffer.sgrLoop st (39 :: rest)
        = TerminalBuffer.sgrLoop { st with current_fg := Color.Reset } rest) ∧
    (∀ (st : TerminalBuffer) (rest : List Nat),
      TerminalBuffer.sgrLoop st (49 :: rest)
        = TerminalBuffer.sgrLoop { st with current_bg := Color.Reset } rest) ∧
    (∀ st : TerminalBuffer,
      st.handle_sgr [39, 49]
        = { st with current_fg := Color.Reset, current_bg := Color.Reset }) ∧
    (∀ n, n < 232 → 16 ≤ n → ansi_to_color n
        = Color.Rgb ((n - 16) / 36 * 51) ((n - 16) / 6 % 6 * 51) ((n - 16) % 6 * 51)) ∧
    (∀ n, n < 256 → 232 ≤ n → ansi_to_color n
        = Color.Rgb ((n - 232) * 10 + 8) ((n - 232) * 10 + 8) ((n - 232) * 10 + 8)) ∧
    ansi_to_color 196 = Color.Rgb 255 0 0 := by
  refine ⟨fun st n rest => rfl, fun st n rest => rfl,
    fun st r g b rest => rfl, fun st r g b rest => rfl,
    fun st => rfl, fun st r => rfl, fun st r g => rfl,
    fun st rest => ?_, fun st rest => ?_, fun st => ?_,
    by decide, by decide, by decide⟩
  · rw [TerminalBuffer.sgrLoop.eq_def]
    simp [TerminalBuffer.sgrSimple]
  · rw [TerminalBuffer.sgrLoop.eq_def]
    simp [TerminalBuffer.sgrSimple]
  · simp only [TerminalBuffer.handle_sgr]
    rw [TerminalBuffer.sgrLoop.eq_def]
    simp [TerminalBuffer.sgrSimple]
    rw [TerminalBuffer.sgrLoop.eq_def]
    simp [TerminalBuffer.sgrSimple]
    rw [TerminalBuffer.sgrLoop.eq_def]

/-- witness for `claim9_sgr`: the palette conjuncts applied at the concrete
indices 196 (colour cube) and 240 (grayscale). -/
theorem claim9_sgr_witness :
    ansi_to_color 196
      = Color.Rgb ((196 - 16) / 36 * 51) ((196 - 16) / 6 % 6 * 51) ((196 - 16) % 6 * 51) ∧
    ansi_to_color 240
      = Color.Rgb ((240 - 232) * 10 + 8) ((240 - 232) * 10 + 8) ((240 - 232) * 10 + 8) :=
  ⟨claim9_sgr.2.2.2.2.2.2.2.2.2.2.1 196 (by decide) (by decide),
   claim9_sgr.2.2.2.2.2.2.2.2.2.2.2.1 240 (by decide) (by decide)⟩

/-! ## Claim C8 — resize round trip -/

theorem length_vecResize (l : List α) (n : Nat) (d : α) :
    (vecResize l n d).length = n := by
  unfold vecResize
  simp [List.length_take]
  omega

theorem getElem_vecResize_lt (l : List α) (n : Nat) (d : α) (i : Nat)
    (h1 : i < n) (h2 : i < l.length) : (vecResize l n d)[i]? = l[i]? := by
  unfold vecResize
  rw [List.getElem?_append_left (by rw [List.length_take]; omega),
    List.getElem?_take_of_lt h1]

theorem mem_vecResize {l : List α} {n : Nat} {d : α} {x : α}
    (hx : x ∈ vecResize l n d) : x ∈ l ∨ x = d := by
  unfold vecResize at hx
  rcases List.mem_append.1 hx with h | h
  · exact Or.inl (List.mem_of_mem_take h)
  · exact Or.inr (List.eq_of_mem_replicate h)

/-- after `resize`, the grid is `h` rows of `w` columns and the dimensions
are updated. -/
theorem resize_dims (st : TerminalBuffer) (w h : Nat)
    (hlen : st.cells.length = st.height)
    (hrows : ∀ row ∈ st.cells, row.length = st.width) :
    (st.resize w h).cells.length = h ∧
    (∀ row ∈ (st.resize w h).cells, row.length = w) ∧
    (st.resize w h).width = w ∧ (st.resize w h).height = h := by
  unfold TerminalBuffer.resize
  split
  next hs =>
    obtain ⟨hw, hh⟩ := hs
    exact ⟨by rw [hlen, hh], fun row hrow => by rw [hrows row hrow, hw], hw.symm, hh.symm⟩
  next =>
    refine ⟨length_vecResize _ h _, ?_, rfl, rfl⟩
    intro row hrow
    rcases mem_vecResize (show row ∈ vecResize
        (st.cells.map (fun row => vecResize row w Cell.default)) h
        (List.replicate w Cell.default) from hrow) with h' | h'
    · rcases List.mem_map.1 h' with ⟨row', _, rfl⟩
      exact length_vecResize row' w Cell.default
    · rw [h']
      exact List.length_replicate w Cell.default

/-- a cell in the overlap rectangle is unchanged by one `resize`. -/
theorem get_cell_resize (st : TerminalBuffer) (w h r c : Nat)
    (hr1 : r < h) (hr2 : r < st.cells.length)
    (hc1 : c < w) (hc2 : ∀ row ∈ st.cells, c < row.length) :
    (st.resize w h).get_cell r c = st.get_cell r c := by
  unfold TerminalBuffer.resize
  split
  · rfl
  next =>
    show ((vecResize (st.cells.map fun row => vecResize row w Cell.default) h
        (List.replicate w Cell.default)).get? r).bind (fun row => row.get? c)
      = (st.cells.get? r).bind (fun row => row.get? c)
    rw [List.get?_eq_getElem?, List.get?_eq_getElem?]
    rw [getElem_vecResize_lt _ _ _ _ hr1 (by simpa using hr2), List.getElem?_map]
    cases hx : st.cells[r]? with
    | none =>
      rw [List.getElem?_eq_none_iff] at hx
      omega
    | some row =>
      show (vecResize row w Cell.default).get? c = row.get? c
      rw [List.get?_eq_getElem?, List.get?_eq_getElem?]
      exact getElem_vecResize_lt row w Cell.default c hc1
        (hc2 row (List.getElem?_mem hx))

/-- Claim C8: resizing to `(w, h)` and then back to the original dimensions
preserves every cell in the overlap rectangle — the first
`min w width` columns of the first `min h height` rows. -/
theorem claim8_resize_roundtrip (st : TerminalBuffer) (w h : Nat)
    (hlen : st.cells.length = st.height)
    (hrows : ∀ row ∈ st.cells, row.length = st.width) :
    ∀ r c, r < min h st.height → c < min w st.width →
      ((st.resize w h).resize st.width st.height).get_cell r c = st.get_cell r c := by
  intro r c hr hc
  obtain ⟨d1, d2, _, _⟩ := resize_dims st w h hlen hrows
  rw [get_cell_resize (st.resize w h) st.width st.height r c
      (lt_of_lt_of_le hr (min_le_right h st.height))
      (by rw [d1]; exact lt_of_lt_of_le hr (min_le_left h st.height))
      (lt_of_lt_of_le hc (min_le_right w st.width))
      (fun row hrow => by
        rw [d2 row hrow]; exact lt_of_lt_of_le hc (min_le_left w st.width))]
  exact get_cell_resize st w h r c
    (lt_of_lt_of_le hr (min_le_left h st.height))
    (by rw [hlen]; exact lt_of_lt_of_le hr (min_le_right h st.height))
    (lt_of_lt_of_le hc (min_le_left w st.width))
    (fun row hrow => by
      rw [hrows row hrow]; exact lt_of_lt_of_le hc (min_le_right w st.width))

/-! ## Claim C6 — deferred wrap -/

theorem length_setCell (cells : List (List Cell)) (r c : Nat) (v : Cell) :
    (setCell cells r c v).length = cells.length :=
  length_modifyRow cells r _

theorem rows_setCell {cells : List (List Cell)} {w : Nat} (r c : Nat) (v : Cell)
    (h : ∀ row ∈ cells, row.length = w) :
    ∀ row ∈ setCell cells r c v, row.length = w := by
  intro row hrow
  rcases mem_modifyRow hrow with h' | ⟨row', hrow', rfl⟩
  · exact h row h'
  · rw [List.length_set]
    exact h row' hrow'

/-- reading back the cell just written by `setCell`. -/
theorem setCell_get_self (cells : List (List Cell)) (r c : Nat) (v : Cell)
    (hr : r < cells.length) (hrl : ∀ row ∈ cells, c < row.length) :
    ((setCell cells r c v).get? r).bind (fun row => row.get? c) = some v := by
  unfold setCell modifyRow
  cases hx : cells.get? r with
  | none =>
    rw [List.get?_eq_getElem?, List.getElem?_eq_none_iff] at hx
    omega
  | some row =>
    rw [List.get?_eq_getElem?] at hx
    show ((cells.set r (row.set c v)).get? r).bind (fun row => row.get? c) = some v
    rw [List.get?_eq_getElem?, List.getElem?_set_self (by simpa using hr)]
    show (row.set c v).get? c = some v
    rw [List.get?_eq_getElem?]
    exact List.getElem?_set_self (hrl row (List.getElem?_mem hx))

/-- `write_char` as a single case split on the deferred-wrap test. -/
theorem write_char_eq (st : TerminalBuffer) (c : Char) :
    st.write_char c =
      if st.cursor_col ≥ st.width then
        let stm := TerminalBuffer.move_cursor_down { st with cursor_col := 0 } 1
        { stm with
          cells := setCell stm.cells stm.cursor_row stm.cursor_col
            (Cell.with_style c stm.current_fg stm.current_bg stm.current_attrs)
          cursor_col := stm.cursor_col + 1 }
      else
        { st with
          cells := setCell st.cells st.cursor_row st.cursor_col
            (Cell.with_style c st.current_fg st.current_bg st.current_attrs)
          cursor_col := st.cursor_col + 1 } := by
  unfold TerminalBuffer.write_char
  split <;> rfl

/-- one `move_cursor_down` step as a case split. -/
theorem move_one_cases (st : TerminalBuffer) :
    st.move_cursor_down 1 =
      if st.cursor_row ≥ st.scroll_bottom
      then TerminalBuffer.scroll_up_step st
      else { st with cursor_row := st.cursor_row + 1 } := by
  show (if st.cursor_row ≥ st.scroll_bottom
        then st.scroll_up 1
        else { st with cursor_row := st.cursor_row + 1 }).move_cursor_down 0 = _
  split <;> rfl

/-- Claim C6: with the cursor at column `width − 1`, printing `c1` writes it
at `(row, width − 1)` and leaves the cursor at the transient column `width`;
a second print wraps exactly once, writing `c2` at column 0 of the next row —
the same row if the cursor was at (or beyond) `scroll_bottom`, where the step
scrolls, row `+ 1` otherwise — and leaves the cursor at column 1.  An
intervening CR suppresses the wrap: `c2` lands at column 0 of the same row. -/
theorem claim6_deferred_wrap (st : TerminalBuffer) (c1 c2 : Char)
    (hlen : st.cells.length = st.height)
    (hrows : ∀ row ∈ st.cells, row.length = st.width)
    (hw : 1 ≤ st.width)
    (hr : st.cursor_row < st.height)
    (hsb : st.scroll_bottom < st.height)
    (hcol : st.cursor_col = st.width - 1) :
    ((st.write_char c1).cursor_row = st.cursor_row ∧
     (st.write_char c1).cursor_col = st.width ∧
     (st.write_char c1).get_cell st.cursor_row (st.width - 1)
       = some (Cell.with_style c1 st.current_fg st.current_bg st.current_attrs)) ∧
    (((st.write_char c1).write_char c2).cursor_row
        = (if st.scroll_bottom ≤ st.cursor_row then st.cursor_row else st.cursor_row + 1) ∧
     ((st.write_char c1).write_char c2).cursor_col = 1 ∧
     ((st.write_char c1).write_char c2).get_cell
        (if st.scroll_bottom ≤ st.cursor_row then st.cursor_row else st.cursor_row + 1) 0
       = some (Cell.with_style c2 st.current_fg st.current_bg st.current_attrs)) ∧
    ((((st.write_char c1).carriage_return).write_char c2).cursor_row = st.cursor_row ∧
     (((st.write_char c1).carriage_return).write_char c2).cursor_col = 1 ∧
     (((st.write_char c1).carriage_return).write_char c2).get_cell st.cursor_row 0
       = some (Cell.with_style c2 st.current_fg st.current_bg st.current_attrs)) := by
  have hc1 : ¬ st.cursor_col ≥ st.width := by omega
  have e1 : st.write_char c1 =
      { st with
        cells := setCell st.cells st.cursor_row st.cursor_col
          (Cell.with_style c1 st.current_fg st.current_bg st.current_attrs)
        cursor_col := st.cursor_col + 1 } := by
    rw [write_char_eq, if_neg hc1]
  have hcol1 : st.cursor_col + 1 = st.width := by omega
  have hlen1 : (setCell st.cells st.cursor_row st.cursor_col
      (Cell.with_style c1 st.current_fg st.current_bg st.current_attrs)).length
      = st.height := by rw [length_setCell, hlen]
  have hrows1 : ∀ row ∈ setCell st.cells st.cursor_row st.cursor_col
      (Cell.with_style c1 st.current_fg st.current_bg st.current_attrs),
      row.length = st.width := rows_setCell _ _ _ hrows
  refine ⟨⟨by rw [e1], by rw [e1]; exact hcol1, ?_⟩, ?_, ?_⟩
  · rw [e1]
    show (((setCell st.cells st.cursor_row st.cursor_col _).get? st.cursor_row).bind
      (fun row => row.get? (st.width - 1))) = _
    rw [← hcol]
    exact setCell_get_self _ _ _ _ (by omega) (fun row hrow => by rw [hrows row hrow]; omega)
  · -- second print: wraps exactly once
    rw [e1]
    rw [write_char_eq]
    rw [if_pos (by show st.width ≤ st.cursor_col + 1; omega)]
    rw [move_one_cases]
    by_cases hb : st.scroll_bottom ≤ st.cursor_row
    · rw [if_pos hb, if_pos (show st.cursor_row ≥ st.scroll_bottom from hb)]
      set stm := TerminalBuffer.scroll_up_step
        { st with
          cells := setCell st.cells st.cursor_row st.cursor_col
            (Cell.with_style c1 st.current_fg st.current_bg st.current_attrs)
          cursor_col := 0 } with hstm
      have hf := scroll_up_step_fields
        { st with
          cells := setCell st.cells st.cursor_row st.cursor_col
            (Cell.with_style c1 st.current_fg st.current_bg st.current_attrs)
          cursor_col := 0 }
      have hrow' : stm.cursor_row = st.cursor_row := hf.1
      have hcol' : stm.cursor_col = 0 := hf.2.1
      have hfg : stm.current_fg = st.current_fg := hf.2.2.2.2.2.2.1
      have hbg : stm.current_bg = st.current_bg := hf.2.2.2.2.2.2.2.1
      have hat : stm.current_attrs = st.current_attrs := hf.2.2.2.2.2.2.2.2
      have hlenm : stm.cells.length = st.height := by
        rw [hstm, scroll_up_step_cells_length]
        exact hlen1
      have hrowsm : ∀ row ∈ stm.cells, row.length = st.width := by
        rw [hstm]
        exact scroll_up_step_rows _ _ hrows1
      refine ⟨by simpa using hrow', by simp [hcol'], ?_⟩
      show ((setCell stm.cells stm.cursor_row stm.cursor_col
        (Cell.with_style c2 stm.current_fg stm.current_bg stm.current_attrs)).get?
          st.cursor_row).bind (fun row => row.get? 0) = _
      rw [hrow', hcol', hfg, hbg, hat]
      exact setCell_get_self _ _ _ _ (by omega)
        (fun row hrow => by rw [hrowsm row hrow]; omega)
    · rw [if_neg hb, if_neg (show ¬ st.cursor_row ≥ st.scroll_bottom from hb)]
      have hlt : st.cursor_row + 1 ≤ st.scroll_bottom := by omega
      refine ⟨by simp, by simp, ?_⟩
      show ((setCell (setCell st.cells st.cursor_row st.cursor_col
          (Cell.with_style c1 st.current_fg st.current_bg st.current_attrs))
          (st.cursor_row + 1) 0
          (Cell.with_style c2 st.current_fg st.current_bg st.current_attrs)).get?
            (st.cursor_row + 1)).bind (fun row => row.get? 0) = _
      exact setCell_get_self _ _ _ _ (by omega)
        (fun row hrow => by rw [hrows1 row hrow]; omega)
  · -- CR between the prints suppresses the wrap
    rw [e1]
    show ((({ st with
        cells := setCell st.cells st.cursor_row st.cursor_col
          (Cell.with_style c1 st.current_fg st.current_bg st.current_attrs)
        cursor_col := st.cursor_col + 1 } : TerminalBuffer).carriage_return).write_char c2).cursor_row
        = st.cursor_row ∧ _
    rw [show ({ st with
        cells := setCell st.cells st.cursor_row st.cursor_col
          (Cell.with_style c1 st.current_fg st.current_bg st.current_attrs)
        cursor_col := st.cursor_col + 1 } : TerminalBuffer).carriage_return
      = { st with
          cells := setCell st.cells st.cursor_row st.cursor_col
            (Cell.with_style c1 st.current_fg st.current_bg st.current_attrs)
          cursor_col := 0 } from rfl]
    rw [write_char_eq, if_neg (by show ¬ st.width ≤ 0; omega)]
    refine ⟨by simp, by simp, ?_⟩
    show ((setCell (setCell st.cells st.cursor_row st.cursor_col
        (Cell.with_style c1 st.current_fg st.current_bg st.current_attrs))
        st.cursor_row 0
        (Cell.with_style c2 st.current_fg st.current_bg st.current_attrs)).get?
          st.cursor_row).bind (fun row => row.get? 0) = _
    exact setCell_get_self _ _ _ _ (by omega)
      (fun row hrow => by rw [hrows1 row hrow]; omega)

/-- witness for `claim6_deferred_wrap`: a 2×2 buffer with the cursor at the
last column of row 0. -/
theorem claim6_deferred_wrap_witness :
    (({ TerminalBuffer.new 2 2 with cursor_col := 1 } : TerminalBuffer).write_char 'a').cursor_col
      = ({ TerminalBuffer.new 2 2 with cursor_col := 1 } : TerminalBuffer).width ∧
    ((({ TerminalBuffer.new 2 2 with cursor_col := 1 } : TerminalBuffer).write_char 'a').write_char 'b').cursor_col
      = 1 :=
  ⟨(claim6_deferred_wrap { TerminalBuffer.new 2 2 with cursor_col := 1 } 'a' 'b'
      (by decide) (by decide) (by decide) (by decide) (by decide) (by decide)).1.2.1,
   (claim6_deferred_wrap { TerminalBuffer.new 2 2 with cursor_col := 1 } 'a' 'b'
      (by decide) (by decide) (by decide) (by decide) (by decide) (by decide)).2.1.2.1⟩

/-! ## Claim C7 — refresh from the window list -/

/-- the parsed entries `(window_id, name, active, pane_id)` of a list-windows
response. -/
def wlEntries (data : String) : List (String × String × Bool × String) :=
  (rustLines data).filterMap parseWindowLine

/-- the window ids of a list-windows response, in line order. -/
def wlIds (data : String) : List String :=
  (wlEntries data).map (fun e => e.1)

/-- the tab that `process_window_list` associates to a parsed entry: the
existing tab with `name` and `pane_id` refreshed (buffer untouched) when the
window is known, a fresh viewport-sized tab otherwise. -/
def wlUpdate (vw vh : Nat) (tabs : List (String × Tab))
    (e : String × String × Bool × String) : Tab :=
  match alistLookup tabs e.1 with
  | some t => { t with name := e.2.1, pane_id := e.2.2.2 }
  | none => Tab.new e.1 e.2.2.2 e.2.1 vw vh

theorem alistLookup_insert (l : List (String × Tab)) (k : String) (v : Tab)
    (w : String) :
    alistLookup (alistInsert l k v) w = if w = k then some v else alistLookup l w := by
  induction l with
  | nil =>
    show alistLookup [(k, v)] w = _
    by_cases h : w = k
    · simp [alistLookup, h]
    · simp [alistLookup, h, Ne.symm h]
  | cons kv rest ih =>
    show alistLookup (if kv.1 = k then (k, v) :: rest else kv :: alistInsert rest k v) w = _
    by_cases hk : kv.1 = k
    · rw [if_pos hk]
      by_cases hw : w = k
      · simp [alistLookup, hw]
      · simp [alistLookup, hw, Ne.symm hw, hk]
    · rw [if_neg hk]
      show (if kv.1 = w then some kv.2 else alistLookup (alistInsert rest k v) w) = _
      by_cases hv : kv.1 = w
      · have hwk : ¬ w = k := fun h => hk (hv.trans h)
        simp [alistLookup, hv, hwk]
      · simp [alistLookup, hv, ih]

theorem alistLookup_filter (l : List (String × Tab)) (p : String → Bool)
    (w : String) :
    alistLookup (l.filter (fun kv => p kv.1)) w
      = if p w then alistLookup l w else none := by
  induction l with
  | nil => simp [alistLookup]
  | cons kv rest ih =>
    by_cases hp : p kv.1
    · rw [List.filter_cons_of_pos (by simpa using hp)]
      by_cases hv : kv.1 = w
      · subst hv
        simp [alistLookup, hp]
      · simp [alistLookup, hv, ih]
    · rw [List.filter_cons_of_neg (by simpa using hp)]
      by_cases hv : kv.1 = w
      · subst hv
        simp [alistLookup, hp, ih]
      · simp [alistLookup, hv, ih]

/-- the tabs map after one `process_window_list` loop iteration on a parsed
line. -/
theorem processWLLine_tabs (vw vh : Nat) (acc : WLAcc) (line : String)
    (e : String × String × Bool × String) (hp : parseWindowLine line = some e) :
    (processWLLine vw vh acc line).tabs
      = alistInsert acc.tabs e.1 (wlUpdate vw vh acc.tabs e) := by
  obtain ⟨wid, name, act, pane⟩ := e
  simp only [processWLLine, hp, wlUpdate]
  cases alistLookup acc.tabs wid <;> rfl

/-- the same iteration when the line does not parse. -/
theorem processWLLine_skip (vw vh : Nat) (acc : WLAcc) (line : String)
    (hp : parseWindowLine line = none) :
    processWLLine vw vh acc line = acc := by
  simp [processWLLine, hp]

theorem wl_fold_order (vw vh : Nat) (lines : List String) (acc : WLAcc) :
    (lines.foldl (processWLLine vw vh) acc).order
      = acc.order ++ (lines.filterMap parseWindowLine).map (fun e => e.1) := by
  induction lines generalizing acc with
  | nil => simp
  | cons l rest ih =>
    rw [List.foldl_cons, ih]
    cases hp : parseWindowLine l with
    | none => simp [processWLLine_skip vw vh acc l hp, hp]
    | some e =>
      obtain ⟨wid, name, act, pane⟩ := e
      simp [processWLLine, hp]

theorem wl_fold_seen (vw vh : Nat) (lines : List String) (acc : WLAcc) :
    (lines.foldl (processWLLine vw vh) acc).seen
      = acc.seen ++ (lines.filterMap parseWindowLine).map (fun e => e.1) := by
  induction lines generalizing acc with
  | nil => simp
  | cons l rest ih =>
    rw [List.foldl_cons, ih]
    cases hp : parseWindowLine l with
    | none => simp [processWLLine_skip vw vh acc l hp, hp]
    | some e =>
      obtain ⟨wid, name, act, pane⟩ := e
      simp [processWLLine, hp]

theorem wl_fold_tabs_notmem (vw vh : Nat) (lines : List String) (acc : WLAcc)
    (w : String)
    (hw : w ∉ (lines.filterMap parseWindowLine).map (fun e => e.1)) :
    alistLookup (lines.foldl (processWLLine vw vh) acc).tabs w
      = alistLookup acc.tabs w := by
  induction lines generalizing acc with
  | nil => rfl
  | cons l rest ih =>
    rw [List.foldl_cons]
    cases hp : parseWindowLine l with
    | none =>
      rw [processWLLine_skip vw vh acc l hp]
      exact ih acc (by simpa [hp] using hw)
    | some e =>
      have hw' : w ≠ e.1 ∧ w ∉ (rest.filterMap parseWindowLine).map (fun e => e.1) := by
        simpa [hp, not_or] using hw
      rw [ih _ hw'.2, processWLLine_tabs vw vh acc l e hp,
        alistLookup_insert, if_neg hw'.1]

theorem wl_fold_tabs_mem (vw vh : Nat) (lines : List String) (acc : WLAcc)
    (hnd : ((lines.filterMap parseWindowLine).map (fun e => e.1)).Nodup) :
    ∀ e ∈ lines.filterMap parseWindowLine,
      alistLookup (lines.foldl (processWLLine vw vh) acc).tabs e.1
        = some (wlUpdate vw vh acc.tabs e) := by
  induction lines generalizing acc with
  | nil => intro e he; simp at he
  | cons l rest ih =>
    intro e he
    rw [List.foldl_cons]
    cases hp : parseWindowLine l with
    | none =>
      rw [processWLLine_skip vw vh acc l hp]
      exact ih acc (by simpa [hp] using hnd) e (by simpa [hp] using he)
    | some e0 =>
      have hnd' : e0.1 ∉ (rest.filterMap parseWindowLine).map (fun e => e.1) ∧
          ((rest.filterMap parseWindowLine).map (fun e => e.1)).Nodup := by
        simpa [hp, List.nodup_cons] using hnd
      have hacc1 : (processWLLine vw vh acc l).tabs
          = alistInsert acc.tabs e0.1 (wlUpdate vw vh acc.tabs e0) :=
        processWLLine_tabs vw vh acc l e0 hp
      have he' : e = e0 ∨ e ∈ rest.filterMap parseWindowLine := by
        simpa [hp] using he
      rcases he' with rfl | he'
      · rw [wl_fold_tabs_notmem vw vh rest (processWLLine vw vh acc l) e.1 hnd'.1,
          hacc1, alistLookup_insert, if_pos rfl]
      · have hne : e.1 ≠ e0.1 := by
          intro hEq
          exact hnd'.1 (hEq ▸ List.mem_map_of_mem _ he')
        rw [ih (processWLLine vw vh acc l) hnd'.2 e he']
        unfold wlUpdate
        rw [hacc1, alistLookup_insert, if_neg hne]

/-- Claim C7: `process_window_list` makes the display order the order of the
parsed input lines; every window named in the input ends up present — a
window already known keeps its existing emulator buffer, with only `name` and
`pane_id` refreshed, and an unknown window gets a fresh viewport-sized tab —
and every known window absent from the input is removed.  In particular
(scenario S5) a refresh with the same window line but a new name keeps the
`'X'` previously written at cell `(0, 0)` and updates the tab name. -/
theorem claim7_refresh (app : App) (data : String)
    (hnd : (wlIds data).Nodup) :
    (app.process_window_list data).tab_order = wlIds data ∧
    (∀ e ∈ wlEntries data,
      alistLookup (app.process_window_list data).tabs e.1
        = some (wlUpdate app.viewport_width app.viewport_height app.tabs e)) ∧
    (∀ w, w ∉ wlIds data →
      alistLookup (app.process_window_list data).tabs w = none) ∧
    (let a1 := (App.new 3 2).process_window_list "@1:shell:1:%0"
     let a2 := a1.process_output "%0" [Op.Print 'X']
     let a3 := a2.process_window_list "@1:shell-renamed:1:%0"
     (alistLookup a3.tabs "@1").map (fun t => t.name) = some "shell-renamed" ∧
     ((alistLookup a3.tabs "@1").bind (fun t => t.buffer.get_cell 0 0)).map
        (fun c => c.character) = some 'X' ∧
     a3.tab_order = ["@1"] ∧ a3.active_window_id = some "@1") := by
  have horder : (app.process_window_list data).tab_order
      = ((rustLines data).foldl
          (processWLLine app.viewport_width app.viewport_height)
          { tabs := app.tabs, order := [], seen := [], active := none }).order := rfl
  have hseen : ((rustLines data).foldl
      (processWLLine app.viewport_width app.viewport_height)
      { tabs := app.tabs, order := [], seen := [], active := none }).seen
      = wlIds data := by
    rw [wl_fold_seen]
    rfl
  have htabs : (app.process_window_list data).tabs
      = ((rustLines data).foldl
          (processWLLine app.viewport_width app.viewport_height)
          { tabs := app.tabs, order := [], seen := [], active := none }).tabs.filter
          (fun kv => ((rustLines data).foldl
            (processWLLine app.viewport_width app.viewport_height)
            { tabs := app.tabs, order := [], seen := [], active := none }).seen.contains
            kv.1) := rfl
  refine ⟨?_, ?_, ?_, by decide⟩
  · rw [horder, wl_fold_order]
    rfl
  · intro e he
    have hmem : e.1 ∈ wlIds data := List.mem_map_of_mem _ he
    rw [htabs, alistLookup_filter,
      if_pos (show (((rustLines data).foldl
          (processWLLine app.viewport_width app.viewport_height)
          { tabs := app.tabs, order := [], seen := [], active := none }).seen.contains
          e.1) = true by rw [hseen]; exact List.elem_iff.mpr hmem)]
    exact wl_fold_tabs_mem app.viewport_width app.viewport_height
      (rustLines data) _ hnd e he
  · intro w hw
    rw [htabs, alistLookup_filter,
      if_neg (show ¬ ((((rustLines data).foldl
          (processWLLine app.viewport_width app.viewport_height)
          { tabs := app.tabs, order := [], seen := [], active := none }).seen.contains
          w) = true) from fun hcc => hw (List.elem_iff.mp (hseen ▸ hcc)))]

/-- witness for `claim7_refresh`: two well-formed window lines, one of them
already known. -/
theorem claim7_refresh_witness :
    ((App.new 3 2).process_window_list "@1:shell:1:%0\n@2:logs:0:%1").tab_order
      = wlIds "@1:shell:1:%0\n@2:logs:0:%1" ∧
    alistLookup ((App.new 3 2).process_window_list "@1:shell:1:%0\n@2:logs:0:%1").tabs
        "@1"
      = some (wlUpdate 3 2 (App.new 3 2).tabs ("@1", "shell", true, "%0")) ∧
    alistLookup ((App.new 3 2).process_window_list "@1:shell:1:%0\n@2:logs:0:%1").tabs
        "@9" = none :=
  ⟨(claim7_refresh (App.new 3 2) "@1:shell:1:%0\n@2:logs:0:%1" (by decide)).1,
   (claim7_refresh (App.new 3 2) "@1:shell:1:%0\n@2:logs:0:%1" (by decide)).2.1
     ("@1", "shell", true, "%0") (by decide),
   (claim7_refresh (App.new 3 2) "@1:shell:1:%0\n@2:logs:0:%1" (by decide)).2.2.1
     "@9" (by decide)⟩

/-- witness for `claim8_resize_roundtrip`: a 3×3 buffer holding `'Q'` at
`(0, 0)`, shrunk to 2×2 and grown back. -/
theorem claim8_resize_roundtrip_witness :
    (((applyOps (TerminalBuffer.new 3 3) [Op.Print 'Q']).resize 2 2).resize
        (applyOps (TerminalBuffer.new 3 3) [Op.Print 'Q']).width
        (applyOps (TerminalBuffer.new 3 3) [Op.Print 'Q']).height).get_cell 0 0
      = (applyOps (TerminalBuffer.new 3 3) [Op.Print 'Q']).get_cell 0 0 :=
  claim8_resize_roundtrip (applyOps (TerminalBuffer.new 3 3) [Op.Print 'Q'])
    2 2 (by decide) (by decide) 0 0 (by decide) (by decide)
